import Mathlib

/-!
Shallow embedding of the auto-codex repository's session-process adapter
(`providers/codex_cli.py`) and credential resolution (`core/auth.py`),
with theorems settling the specification claims about them.

Python values are modelled as follows: JSON values as an inductive `Json`,
`str` as `String`, `dict[str, ...]` as association lists, `Optional[x]` as
`Option`, raised exceptions as `Except` / explicit outcome types, and the
environment as a function `String → Option String`.
-/

/-- JSON values as produced by `json.loads`. Numbers are modelled as `Int`,
which covers every numeric payload the claims exercise. -/
inductive Json where
  | null
  | bool (b : Bool)
  | num (n : Int)
  | str (s : String)
  | arr (elems : List Json)
  | obj (fields : List (String × Json))

/-- True exactly when the JSON value is an object (a Python `dict`). -/
def Json.isObj : Json → Bool
  | .obj _ => true
  | _ => false

/-- Python equality test between a JSON value and a string: only a JSON
string can compare equal to a `str`. -/
def Json.strEq : Json → String → Bool
  | .str t, s => t == s
  | _, _ => false

/-- Python type name of a JSON value, as it appears in `AttributeError`
messages raised by attribute lookup on that value. -/
def pyTypeName : Json → String
  | .null => "NoneType"
  | .bool _ => "bool"
  | .num _ => "int"
  | .str _ => "str"
  | .arr _ => "list"
  | .obj _ => "dict"

/-- Message of the `AttributeError` raised by `value.get(...)` when `value`
is not a dict. -/
def attr_error_msg (j : Json) : String :=
  "'" ++ pyTypeName j ++ "' object has no attribute 'get'"

/-- Lookup in a decoded JSON object with a default, modelling `dict.get`. -/
def jget : List (String × Json) → String → Json → Json
  | [], _, d => d
  | (k, v) :: rest, key, d => if k = key then v else jget rest key d

/-- Characters treated as whitespace by Python's `str.strip`. -/
def is_py_space (c : Char) : Bool :=
  c = ' ' || c = '\t' || c = '\n' || c = '\r' || c = '\x0b' || c = '\x0c'

/-- Python `str.strip()`: whitespace removed from both ends. -/
def pyStrip (s : String) : String :=
  String.mk (((s.toList.dropWhile is_py_space).reverse.dropWhile is_py_space).reverse)

/-- Python `str.rstrip()`: whitespace removed from the trailing end only.
Used to compare the code's behaviour against the spec's wording. -/
def pyRstrip (s : String) : String :=
  String.mk ((s.toList.reverse.dropWhile is_py_space).reverse)

/-! Section: core/auth.py -/

/-- A process environment: `os.environ.get` for each variable name. -/
def Env : Type := String → Option String

/-- Characters admitted by the regex character class `[A-Za-z0-9-]`. -/
def is_key_char (c : Char) : Bool :=
  c.isAlpha || c.isDigit || c = '-'

/-- The characters the `[A-Za-z0-9-]{20,}$` part of the key pattern has to
cover: the whole tail, except that a single newline at the very end is
excluded, because Python's `$` also matches just before a trailing newline. -/
def key_body (rest : List Char) : List Char :=
  if rest.getLast? = some '\n' then rest.dropLast else rest

/-- Tail of the key after the mandatory three leading characters, checked by
the remainder of the regex pattern `sk-[A-Za-z0-9-]{20,}$` under Python
`re.match` semantics. -/
def key_tail_ok (rest : List Char) : Bool :=
  decide (20 ≤ (key_body rest).length) && (key_body rest).all is_key_char

/-- Character-list form of `re.match` of the compiled pattern
`^sk-[A-Za-z0-9-]{20,}$` against a token. -/
def key_chars_ok : List Char → Bool
  | 's' :: 'k' :: '-' :: rest => key_tail_ok rest
  | _ => false

/-- Embeds `is_valid_openai_api_key` from `core/auth.py`: `re.match` of
`^sk-[A-Za-z0-9-]{20,}$` on the token, with Python's end-of-string `$`
semantics. -/
def is_valid_openai_api_key (token : String) : Bool :=
  key_chars_ok token.toList

/-- Follows the spec claim's words for comparison with the code: the token is
`sk-` followed by at least 20 alphanumeric-or-hyphen characters and nothing
else. -/
def claimed_key_format (token : String) : Bool :=
  match token.toList with
  | 's' :: 'k' :: '-' :: rest => decide (rest.length ≥ 20) && rest.all is_key_char
  | _ => false

/-- Error text used by `require_auth_token` for a malformed primary key. -/
def INVALID_KEY_MESSAGE : String :=
  "Invalid OPENAI_API_KEY format.\nExpected a key starting with 'sk-' (e.g., sk-...)."

/-- Error text used by `require_auth_token` when only the deprecated legacy
variable is present. -/
def MIGRATION_MESSAGE : String :=
  "Detected CLAUDE_CODE_OAUTH_TOKEN, but Codex now requires OPENAI_API_KEY.\nPlease migrate by setting OPENAI_API_KEY in your environment and remove CLAUDE_CODE_OAUTH_TOKEN once complete."

/-- Error text used by `require_auth_token` when no credential is present. -/
def MISSING_MESSAGE : String :=
  "No OpenAI API key found.\n\nAuto Codex uses OpenAI Codex.\nSet OPENAI_API_KEY in your .env file or environment."

/-- Embeds `get_deprecated_auth_token`: first truthy value among the
deprecated variables (`CLAUDE_CODE_OAUTH_TOKEN` only). -/
def get_deprecated_auth_token (env : Env) : Option String :=
  match env "CLAUDE_CODE_OAUTH_TOKEN" with
  | some t => if t ≠ "" then some t else none
  | none => none

/-- Embeds `get_auth_token`: the primary variable's value when it is truthy
and passes format validation, `None` otherwise. The source's local `token`
binding is inlined. -/
def get_auth_token (env : Env) : Option String :=
  if (env "OPENAI_API_KEY").getD "" ≠ "" ∧
      is_valid_openai_api_key ((env "OPENAI_API_KEY").getD "") = true then
    some ((env "OPENAI_API_KEY").getD "")
  else none

/-- Embeds `require_auth_token`: returns the token or raises `ValueError`
with one of three messages. The source's local `openai_token` binding is
inlined. -/
def require_auth_token (env : Env) : Except String String :=
  match get_auth_token env with
  | some t => .ok t
  | none =>
    if (env "OPENAI_API_KEY").getD "" ≠ "" ∧
        is_valid_openai_api_key ((env "OPENAI_API_KEY").getD "") = false then
      .error INVALID_KEY_MESSAGE
    else
      match get_deprecated_auth_token env with
      | some _ => .error MIGRATION_MESSAGE
      | none => .error MISSING_MESSAGE

/-! Events, as declared in core/protocols.py. -/

/-- Event tags of `EventType` in `core/protocols.py`. -/
inductive EventType where
  | text
  | tool_start
  | tool_result
  | error
  | session_start
  | session_end
deriving DecidableEq

/-- An `LLMEvent`: a tag plus a string-keyed payload dict. The optional
timestamp field of the source dataclass is always left at its `None` default
by this provider and is omitted. -/
structure LLMEvent where
  type : EventType
  data : List (String × Json)

/-- Event carrying only the session identifier, used for `session_start` and
`session_end`. -/
def session_event (t : EventType) (sid : String) : LLMEvent :=
  { type := t, data := [("session_id", Json.str sid)] }

/-- The error event yielded on a read timeout. -/
def timeout_error_event : LLMEvent :=
  { type := .error, data := [("error", Json.str "timeout waiting for output")] }

/-- The error event yielded by the catch-all handler around the read loop,
carrying `str(exc)`. -/
def loop_error_event (msg : String) : LLMEvent :=
  { type := .error, data := [("error", Json.str msg)] }

/-- The error event yielded after the loop when the process exit code is
non-zero. -/
def exit_error_event (rc : Int) (stderrText : String) : LLMEvent :=
  { type := .error
  , data := [("error", Json.str "process exited with error"),
             ("returncode", Json.num rc), ("stderr", Json.str stderrText)] }

/-! Section: providers/codex_cli.py: line parsing -/

/-- Embeds `CodexCliClient._parse_output_line`. `line` is the stripped
decoded text of one stdout line; `decoded` is the result of `json.loads line`
(`none` when decoding raises `JSONDecodeError`). The `Except.error` result
models the `AttributeError` raised by `data.get` when the decoded top-level
value is not a dict; that exception escapes this function into the caller's
catch-all handler. The source's local `event_type` binding is inlined. -/
def parse_output_line (line : String) (decoded : Option Json) :
    Except String (Option LLMEvent) :=
  if line = "" then .ok none
  else
    match decoded with
    | none => .ok (some { type := .text, data := [("content", Json.str line)] })
    | some (Json.obj fields) =>
        if (jget fields "type" (Json.str "")).strEq "message" then
          .ok (some { type := .text
                    , data := [("content", jget fields "content" (Json.str ""))] })
        else if (jget fields "type" (Json.str "")).strEq "tool_use" then
          .ok (some { type := .tool_start, data := fields })
        else if (jget fields "type" (Json.str "")).strEq "tool_result" then
          .ok (some { type := .tool_result, data := fields })
        else if (jget fields "type" (Json.str "")).strEq "error" then
          .ok (some { type := .error, data := fields })
        else
          .ok (some { type := .text, data := [("raw", Json.str line)] })
    | some j => .error (attr_error_msg j)

/-! Section: providers/codex_cli.py: the stream_events read loop

One invocation of `readline` inside `stream_events` is modelled by a
`ReadStep`: either it returns a line (carried together with the
`json.loads` result of its stripped text), or it raises
`asyncio.TimeoutError` (realizable only when the configured timeout is
positive, since only then is the read wrapped in `wait_for`), or it raises
some other exception, which the loop's catch-all handler absorbs. Reaching
the end of the step list models end-of-file: every further `readline`
returns an empty line. -/

/-- Outcome of one `process.stdout.readline()` call. -/
inductive ReadStep where
  | line (raw : String) (decoded : Option Json)
  | timeout
  | exn (msg : String)

/-- One element of the observable behaviour of `stream_events`: an event
yielded to the consumer, a call to `_terminate_process`, or the
`close(session_id)` call made before the final event. -/
inductive StreamItem where
  | evt (e : LLMEvent)
  | terminateProc
  | closeSession

/-- Result of the read loop: the items it produced, whether it invoked
`_terminate_process` (timeout path), and the read steps it never consumed. -/
structure LoopResult where
  items : List StreamItem
  terminated : Bool
  remaining : List ReadStep

/-- Embeds the `while True` read/parse loop of `stream_events`, including
the surrounding `try/except Exception` handler. -/
def read_loop : List ReadStep → LoopResult
  | [] => ⟨[], false, []⟩
  | ReadStep.timeout :: rest =>
      ⟨[.evt timeout_error_event, .terminateProc], true, rest⟩
  | ReadStep.exn msg :: rest => ⟨[.evt (loop_error_event msg)], false, rest⟩
  | ReadStep.line raw decoded :: rest =>
      if raw = "" then ⟨[], false, rest⟩
      else
        match parse_output_line (pyStrip raw) decoded with
        | .error msg => ⟨[.evt (loop_error_event msg)], false, rest⟩
        | .ok none => read_loop rest
        | .ok (some e) =>
            ⟨.evt e :: (read_loop rest).items, (read_loop rest).terminated,
             (read_loop rest).remaining⟩

/-- Guard `self.timeout and self.timeout > 0` deciding whether reads are
wrapped in `asyncio.wait_for`. -/
def timeout_enabled (timeout : Int) : Bool :=
  decide (timeout ≠ 0) && decide (0 < timeout)

/-! Section: providers/codex_cli.py: processes, sessions and the session table -/

/-- State of the stdin pipe of a spawned process: whether `close()` has been
called on the writer, and everything written to it so far. A spawned process
always has a stdin writer object, which is truthy in Python regardless of
whether it has been closed. -/
structure StdinState where
  closed : Bool := false
  buf : String := ""

/-- A spawned child process together with its externally determined I/O
behaviour. `returncode` is the currently known exit status (`none` while the
child runs). `steps` lists the outcomes of successive stdout reads, after
which reads return end-of-file. `exitCode` is the status that
`process.returncode` / `process.wait()` reports when the stream loop ended
without forcing termination; `termCode` is the status observed after
`_terminate_process` ran. `stderrData` is what `process.stderr.read()`
returns (`none` models an absent stderr pipe, which is falsy). -/
structure Process where
  cmd : List String := []
  stdin : Option StdinState := none
  returncode : Option Int := none
  steps : List ReadStep := []
  exitCode : Int := 0
  termCode : Int := 0
  stderrData : Option String := none

/-- The `CodexSession` dataclass. -/
structure Session where
  session_id : String
  process : Option Process := none
  workdir : String := ""
  closed : Bool := false

/-- The `_sessions` dict, keyed by session identifier. -/
def SessionTable : Type := List (String × Session)

/-- Dict lookup `self._sessions.get(session_id)`. -/
def table_get : SessionTable → String → Option Session
  | [], _ => none
  | (k, v) :: rest, sid => if k = sid then some v else table_get rest sid

/-- Dict removal `self._sessions.pop(session_id, None)`. -/
def table_remove (table : SessionTable) (sid : String) : SessionTable :=
  table.filter (fun kv => !(kv.fst == sid))

/-- Dict assignment `self._sessions[session_id] = session`. -/
def table_put (table : SessionTable) (sid : String) (s : Session) : SessionTable :=
  (sid, s) :: table_remove table sid

/-- Constructor configuration of `CodexCliClient`, with the `__init__`
defaults. -/
structure Config where
  model : String := "gpt-5.2-codex-xhigh"
  workdir : String := ""
  timeout : Int := 600
  bypass_sandbox : Bool := true
  extra_args : List String := []

/-- The sandbox-bypass flag appended when `bypass_sandbox` is enabled. -/
def BYPASS_SANDBOX_FLAG : String := "--dangerously-bypass-approvals-and-sandbox"

/-- Embeds `CodexCliClient._build_command`. The prompt parameter is accepted
and ignored, exactly as in the source. -/
def build_command (cfg : Config) (prompt : String) : List String :=
  ["codex", "exec"]
  ++ (if cfg.bypass_sandbox then [BYPASS_SANDBOX_FLAG] else [])
  ++ ["-m", cfg.model] ++ ["--json"] ++ cfg.extra_args ++ ["-"]

/-- The I/O behaviour the environment assigns to a freshly spawned child:
its future stdout read outcomes, exit statuses and stderr contents. -/
structure SpawnBehavior where
  steps : List ReadStep := []
  exitCode : Int := 0
  termCode : Int := 0
  stderrData : Option String := none

/-- Embeds `CodexCliClient.start_session`. The fresh `uuid4` identifier is
passed in as `sid`; the spawned process's behaviour is the externally
supplied `beh`. The process is spawned with all three pipes, the prompt plus
a newline is written to stdin, stdin is drained and closed, and the session
is recorded in the table. -/
def start_session (cfg : Config) (table : SessionTable) (sid prompt : String)
    (beh : SpawnBehavior) : SessionTable × String :=
  let cmd := build_command cfg prompt
  let p0 : Process :=
    { cmd := cmd, stdin := some {}, returncode := none, steps := beh.steps,
      exitCode := beh.exitCode, termCode := beh.termCode,
      stderrData := beh.stderrData }
  let p :=
    match p0.stdin with
    | some sIn =>
        { p0 with stdin := some { closed := true, buf := sIn.buf ++ prompt ++ "\n" } }
    | none => p0
  (table_put table sid
    { session_id := sid, process := some p, workdir := cfg.workdir, closed := false },
   sid)

/-- Outcome of `CodexCliClient.send`: the `ValueError` for a missing or
closed session, the `RuntimeError` for an absent stdin stream, or the write
of the message plus a newline (followed by `drain`) to a stdin stream whose
closed flag is reported alongside. -/
inductive SendOutcome where
  | notFound (msg : String)
  | stdinUnavailable (msg : String)
  | wrote (data : String) (stdinClosed : Bool)

/-- True exactly on the `RuntimeError` (stdin unavailable) outcome. -/
def SendOutcome.isUnavailable : SendOutcome → Bool
  | .stdinUnavailable _ => true
  | _ => false

/-- Embeds `CodexCliClient.send`. -/
def send (table : SessionTable) (sid message : String) : SendOutcome :=
  match table_get table sid with
  | none => .notFound ("Session " ++ sid ++ " not found")
  | some session =>
    match session.process with
    | none => .notFound ("Session " ++ sid ++ " not found")
    | some p =>
      if session.closed then .notFound ("Session " ++ sid ++ " not found")
      else
        match p.stdin with
        | none => .stdinUnavailable "Session stdin is not available"
        | some sIn => .wrote (message ++ "\n") sIn.closed

/-- Embeds `CodexCliClient._terminate_process`: nothing happens when the
child has already exited; otherwise the terminate/kill escalation runs and
the child ends with status `termCode`. The boolean records whether the
escalation ran. -/
def terminate_process (p : Process) : Process × Bool :=
  if p.returncode = none then ({ p with returncode := some p.termCode }, true)
  else (p, false)

/-- Result of `CodexCliClient.close`: the updated session table, whether a
running child was put through the termination policy, and the final state of
the session record the call mutated (if any). `close` has no raise path. -/
structure CloseResult where
  table : SessionTable
  terminated : Bool
  finalSession : Option Session

/-- Embeds `CodexCliClient.close`. -/
def close (table : SessionTable) (sid : String) : CloseResult :=
  match table_get table sid with
  | none => ⟨table_remove table sid, false, none⟩
  | some session =>
    if session.closed then ⟨table_remove table sid, false, some session⟩
    else
      match session.process with
      | none =>
          ⟨table_remove table sid, false, some { session with closed := true }⟩
      | some p =>
          let r := terminate_process p
          ⟨table_remove table sid, r.2,
           some { session with closed := true, process := some r.1 }⟩

/-! Section: providers/codex_cli.py: stream_events -/

/-- Exit status observed by the post-loop check `process.returncode` /
`await process.wait()`: the post-termination status when the loop forced
termination, the natural exit status otherwise. -/
def observed_returncode (p : Process) (terminated : Bool) : Int :=
  if terminated then p.termCode else p.exitCode

/-- The stderr text placed in the non-zero-exit error event:
`(await process.stderr.read()).decode(errors="replace").strip()` when the
stderr pipe exists, the initial `""` otherwise. -/
def stderr_text (p : Process) : String :=
  match p.stderrData with
  | some s => pyStrip s
  | none => ""

/-- Embeds the body of `CodexCliClient.stream_events` for a found session
with process `p`: yield `session_start`, run the read loop, determine the
exit status and yield the non-zero-exit error event if warranted, call
`close`, and yield `session_end`. -/
def stream_body (sid : String) (p : Process) : List StreamItem :=
  StreamItem.evt (session_event .session_start sid) ::
  ((read_loop p.steps).items
   ++ (if observed_returncode p (read_loop p.steps).terminated ≠ 0 then
         [StreamItem.evt (exit_error_event
           (observed_returncode p (read_loop p.steps).terminated) (stderr_text p))]
       else [])
   ++ [StreamItem.closeSession, StreamItem.evt (session_event .session_end sid)])

/-- Embeds `CodexCliClient.stream_events` including its session lookup:
raises `ValueError` when the identifier is unknown or the session has no
process, and otherwise produces the generator's items. -/
def stream_events (table : SessionTable) (sid : String) :
    Except String (List StreamItem) :=
  match table_get table sid with
  | none => .error ("Session " ++ sid ++ " not found")
  | some session =>
    match session.process with
    | none => .error ("Session " ++ sid ++ " not found")
    | some p => .ok (stream_body sid p)

/-- The events a consumer of `stream_events` sees, in order. -/
def events_of (items : List StreamItem) : List LLMEvent :=
  items.filterMap fun i =>
    match i with
    | .evt e => some e
    | _ => none

/-- True when an `Except` carries a success value. -/
def except_ok {ε α : Type} : Except ε α → Bool
  | .ok _ => true
  | .error _ => false

/-- A read step the loop passes through without breaking, terminating or
raising: a non-empty line whose parse does not raise. -/
def quiet_step : ReadStep → Bool
  | ReadStep.line raw decoded =>
      !(raw == "") && except_ok (parse_output_line (pyStrip raw) decoded)
  | _ => false

theorem read_loop_cons_line_ok_none (raw : String) (decoded : Option Json)
    (rest : List ReadStep) (hraw : ¬ raw = "")
    (hp : parse_output_line (pyStrip raw) decoded = .ok none) :
    read_loop (ReadStep.line raw decoded :: rest) = read_loop rest := by
  conv_lhs => rw [read_loop]
  rw [if_neg hraw, hp]

theorem read_loop_cons_line_ok_some (raw : String) (decoded : Option Json)
    (rest : List ReadStep) (e : LLMEvent) (hraw : ¬ raw = "")
    (hp : parse_output_line (pyStrip raw) decoded = .ok (some e)) :
    read_loop (ReadStep.line raw decoded :: rest) =
      ⟨StreamItem.evt e :: (read_loop rest).items, (read_loop rest).terminated,
       (read_loop rest).remaining⟩ := by
  conv_lhs => rw [read_loop]
  rw [if_neg hraw, hp]

theorem read_loop_cons_line_error (raw : String) (decoded : Option Json)
    (rest : List ReadStep) (msg : String) (hraw : ¬ raw = "")
    (hp : parse_output_line (pyStrip raw) decoded = .error msg) :
    read_loop (ReadStep.line raw decoded :: rest) =
      ⟨[StreamItem.evt (loop_error_event msg)], false, rest⟩ := by
  conv_lhs => rw [read_loop]
  rw [if_neg hraw, hp]

/-- A run of quiet steps contributes its events and leaves the rest of the
loop unchanged. -/
theorem read_loop_append_quiet (pre rest : List ReadStep)
    (hq : ∀ s ∈ pre, quiet_step s = true) :
    read_loop (pre ++ rest) =
      ⟨(read_loop pre).items ++ (read_loop rest).items,
       (read_loop rest).terminated, (read_loop rest).remaining⟩ := by
  induction pre with
  | nil => simp [read_loop]
  | cons s pre ih =>
    have hs := hq s (List.mem_cons_self s pre)
    have hpre : ∀ x ∈ pre, quiet_step x = true :=
      fun x hx => hq x (List.mem_cons_of_mem s hx)
    cases s with
    | timeout => simp [quiet_step] at hs
    | exn msg => simp [quiet_step] at hs
    | line raw decoded =>
      simp only [quiet_step, Bool.and_eq_true, Bool.not_eq_true',
        beq_eq_false_iff_ne, ne_eq] at hs
      obtain ⟨hraw, hok⟩ := hs
      cases hp : parse_output_line (pyStrip raw) decoded with
      | error msg => rw [hp] at hok; simp [except_ok] at hok
      | ok o =>
        cases o with
        | none =>
          rw [List.cons_append, read_loop_cons_line_ok_none _ _ _ hraw hp,
            read_loop_cons_line_ok_none _ _ _ hraw hp]
          exact ih hpre
        | some e =>
          rw [List.cons_append, read_loop_cons_line_ok_some _ _ _ _ hraw hp,
            read_loop_cons_line_ok_some _ _ _ _ hraw hp, ih hpre]
          simp

theorem events_of_append (a b : List StreamItem) :
    events_of (a ++ b) = events_of a ++ events_of b := by
  unfold events_of
  exact List.filterMap_append a b _

theorem events_of_cons_evt (e : LLMEvent) (l : List StreamItem) :
    events_of (StreamItem.evt e :: l) = e :: events_of l := rfl

theorem events_of_cons_close (l : List StreamItem) :
    events_of (StreamItem.closeSession :: l) = events_of l := rfl

/-- The item sequence of `stream_body`, rewritten so the final
`session_end` event is an explicit last element. -/
theorem stream_body_shape (sid : String) (p : Process) :
    stream_body sid p =
      (StreamItem.evt (session_event .session_start sid) ::
       ((read_loop p.steps).items
        ++ (if observed_returncode p (read_loop p.steps).terminated ≠ 0 then
              [StreamItem.evt (exit_error_event
                (observed_returncode p (read_loop p.steps).terminated)
                (stderr_text p))]
            else [])
        ++ [StreamItem.closeSession]))
      ++ [StreamItem.evt (session_event .session_end sid)] := by
  unfold stream_body
  simp

/-! Section: Claims C7 and C8: credential validation and resolution -/

theorem key_tail_ok_of_body (body : List Char) (hlen : 20 ≤ body.length)
    (hall : body.all is_key_char = true) :
    key_tail_ok body = true ∧ key_tail_ok (body ++ ['\n']) = true := by
  constructor
  · have hl : ¬ body.getLast? = some '\n' := by
      intro hc
      have hmem : '\n' ∈ body := List.mem_of_mem_getLast? hc
      have := List.all_eq_true.mp hall _ hmem
      simp [is_key_char] at this
    unfold key_tail_ok key_body
    rw [if_neg hl]
    simp [hall, hlen]
  · have hl : (body ++ ['\n']).getLast? = some '\n' := List.getLast?_concat _
    unfold key_tail_ok key_body
    rw [if_pos hl, List.dropLast_concat]
    simp [hall, hlen]

theorem key_tail_ok_iff (rest : List Char) :
    key_tail_ok rest = true ↔
      ∃ body : List Char, 20 ≤ body.length ∧ body.all is_key_char = true ∧
        (rest = body ∨ rest = body ++ ['\n']) := by
  constructor
  · intro h
    unfold key_tail_ok at h
    simp only [Bool.and_eq_true, decide_eq_true_eq] at h
    by_cases hl : rest.getLast? = some '\n'
    · refine ⟨rest.dropLast, ?_, ?_, Or.inr ?_⟩
      · simpa [key_body, hl] using h.1
      · simpa [key_body, hl] using h.2
      · exact (List.dropLast_append_getLast? '\n' hl).symm
    · refine ⟨rest, ?_, ?_, Or.inl rfl⟩
      · simpa [key_body, hl] using h.1
      · simpa [key_body, hl] using h.2
  · rintro ⟨body, hlen, hall, hcase | hcase⟩
    · rw [hcase]
      exact (key_tail_ok_of_body body hlen hall).1
    · rw [hcase]
      exact (key_tail_ok_of_body body hlen hall).2

theorem key_chars_ok_iff (l : List Char) :
    key_chars_ok l = true ↔
      ∃ rest, l = 's' :: 'k' :: '-' :: rest ∧ key_tail_ok rest = true := by
  constructor
  · intro h
    unfold key_chars_ok at h
    split at h
    · next rest => exact ⟨rest, rfl, h⟩
    · exact absurd h (by simp)
  · rintro ⟨rest, rfl, h⟩
    exact h

/-- C7 (counterexample): `is_valid_openai_api_key` accepts a token made of
`sk-`, twenty characters from the class, and one trailing newline, although
that token is not `sk-` followed only by alphanumeric-or-hyphen characters.
Python's `$` matches just before a trailing newline, so the claimed
if-and-only-if characterization fails on this input. -/
theorem C7_counterexample_trailing_newline :
    is_valid_openai_api_key "sk-aaaaaaaaaaaaaaaaaaaa\n" = true ∧
    claimed_key_format "sk-aaaaaaaaaaaaaaaaaaaa\n" = false := by
  constructor <;> decide

/-- C7 (amended): the validator accepts a token iff it is `sk-` followed by
at least 20 alphanumeric-or-hyphen characters, optionally followed by a
single trailing newline; in particular `sk-` plus 20 hex characters is
valid while `sk_123` and `not-a-key` are not. -/
theorem C7_key_validation_amended :
    (is_valid_openai_api_key "sk-0123456789abcdef0123" = true ∧
     is_valid_openai_api_key "sk_123" = false ∧
     is_valid_openai_api_key "not-a-key" = false) ∧
    ∀ token : String,
      is_valid_openai_api_key token = true ↔
        ∃ body : List Char, 20 ≤ body.length ∧ body.all is_key_char = true ∧
          (token.toList = 's' :: 'k' :: '-' :: body ∨
           token.toList = 's' :: 'k' :: '-' :: (body ++ ['\n'])) := by
  refine ⟨⟨by decide, by decide, by decide⟩, fun token => ?_⟩
  unfold is_valid_openai_api_key
  rw [key_chars_ok_iff]
  constructor
  · rintro ⟨rest, htl, hok⟩
    rcases (key_tail_ok_iff rest).mp hok with ⟨body, hlen, hall, hcase | hcase⟩
    · exact ⟨body, hlen, hall, Or.inl (by rw [htl, hcase])⟩
    · exact ⟨body, hlen, hall, Or.inr (by rw [htl, hcase])⟩
  · rintro ⟨body, hlen, hall, htl | htl⟩
    · exact ⟨body, htl, (key_tail_ok_iff body).mpr ⟨body, hlen, hall, Or.inl rfl⟩⟩
    · exact ⟨body ++ ['\n'], htl,
        (key_tail_ok_iff _).mpr ⟨body, hlen, hall, Or.inr rfl⟩⟩

/-- C8: a usable credential only ever comes from the primary variable and
passes format validation; the deprecated variable is never returned as a
usable credential. When no valid primary credential exists,
`require_auth_token` raises: with the invalid-format message when the
primary variable is set but malformed, with the migration message naming the
deprecated variable when only the deprecated variable is set, and with the
missing-credential message when neither is set. -/
theorem C8_credential_resolution (env : Env) :
    (∀ t, get_auth_token env = some t →
        t = (env "OPENAI_API_KEY").getD "" ∧ t ≠ "" ∧
        is_valid_openai_api_key t = true) ∧
    (∀ t, require_auth_token env = .ok t → get_auth_token env = some t) ∧
    (get_auth_token env = none → (env "OPENAI_API_KEY").getD "" ≠ "" →
        require_auth_token env = .error INVALID_KEY_MESSAGE) ∧
    (get_auth_token env = none → (env "OPENAI_API_KEY").getD "" = "" →
        ∀ d, get_deprecated_auth_token env = some d →
        require_auth_token env = .error MIGRATION_MESSAGE) ∧
    (get_auth_token env = none → (env "OPENAI_API_KEY").getD "" = "" →
        get_deprecated_auth_token env = none →
        require_auth_token env = .error MISSING_MESSAGE) := by
  have hval : get_auth_token env = none →
      (env "OPENAI_API_KEY").getD "" ≠ "" →
      is_valid_openai_api_key ((env "OPENAI_API_KEY").getD "") = false := by
    intro hget hne
    unfold get_auth_token at hget
    split at hget
    · exact nomatch hget
    · next hc =>
      rcases Bool.eq_false_or_eq_true (is_valid_openai_api_key
        ((env "OPENAI_API_KEY").getD "")) with hv | hv
      · exact absurd ⟨hne, hv⟩ hc
      · exact hv
  refine ⟨?_, ?_, ?_, ?_, ?_⟩
  · intro t h
    unfold get_auth_token at h
    split at h
    · next hc =>
      obtain rfl : (env "OPENAI_API_KEY").getD "" = t := Option.some.inj h
      exact ⟨rfl, hc.1, hc.2⟩
    · exact nomatch h
  · intro t h
    unfold require_auth_token at h
    split at h
    · next a ha => exact Except.ok.inj h ▸ ha
    · split at h
      · exact nomatch h
      · split at h
        · exact nomatch h
        · exact nomatch h
  · intro hget hne
    unfold require_auth_token
    rw [hget]
    rw [if_pos ⟨hne, hval hget hne⟩]
  · intro hget hempty d hdep
    unfold require_auth_token
    rw [hget, if_neg (by simp [hempty]), hdep]
  · intro hget hempty hdep
    unfold require_auth_token
    rw [hget, if_neg (by simp [hempty]), hdep]

/-- Concrete environment with only a malformed primary credential. -/
def env_invalid : Env := fun v => if v = "OPENAI_API_KEY" then some "not-a-key" else none

/-- Concrete environment with only the deprecated legacy credential. -/
def env_deprecated : Env :=
  fun v => if v = "CLAUDE_CODE_OAUTH_TOKEN" then some "legacy-token" else none

/-- Concrete environment with no credential at all. -/
def env_empty : Env := fun _ => none

/-- Witness for C8 at three concrete environments, one per error case. -/
theorem C8_credential_resolution_witness :
    require_auth_token env_invalid = .error INVALID_KEY_MESSAGE ∧
    require_auth_token env_deprecated = .error MIGRATION_MESSAGE ∧
    require_auth_token env_empty = .error MISSING_MESSAGE :=
  ⟨(C8_credential_resolution env_invalid).2.2.1 (by decide) (by decide),
   (C8_credential_resolution env_deprecated).2.2.2.1 (by decide) (by decide)
     "legacy-token" (by decide),
   (C8_credential_resolution env_empty).2.2.2.2 (by decide) (by decide) (by decide)⟩

/-! Section: Claim C2: line parsing -/

/-- C2: for every non-empty stdout line, a decode failure yields a `text`
event whose payload holds the literal line under `content`; a decoded
object dispatches on its `type` field: `message` yields a `text` event
carrying the object's `content` field, `tool_use` a `tool_start` event with
the full object, `tool_result` a `tool_result` event with the full object,
`error` an `error` event with the full object, and any other or missing
value a `text` event carrying the raw line under `raw`. -/
theorem C2_parse_output_line (line : String) (fields : List (String × Json))
    (hline : line ≠ "") :
    parse_output_line line none =
      .ok (some { type := .text, data := [("content", Json.str line)] }) ∧
    (jget fields "type" (Json.str "") = Json.str "message" →
      parse_output_line line (some (Json.obj fields)) =
        .ok (some { type := .text
                  , data := [("content", jget fields "content" (Json.str ""))] })) ∧
    (jget fields "type" (Json.str "") = Json.str "tool_use" →
      parse_output_line line (some (Json.obj fields)) =
        .ok (some { type := .tool_start, data := fields })) ∧
    (jget fields "type" (Json.str "") = Json.str "tool_result" →
      parse_output_line line (some (Json.obj fields)) =
        .ok (some { type := .tool_result, data := fields })) ∧
    (jget fields "type" (Json.str "") = Json.str "error" →
      parse_output_line line (some (Json.obj fields)) =
        .ok (some { type := .error, data := fields })) ∧
    ((jget fields "type" (Json.str "")).strEq "message" = false →
     (jget fields "type" (Json.str "")).strEq "tool_use" = false →
     (jget fields "type" (Json.str "")).strEq "tool_result" = false →
     (jget fields "type" (Json.str "")).strEq "error" = false →
      parse_output_line line (some (Json.obj fields)) =
        .ok (some { type := .text, data := [("raw", Json.str line)] })) := by
  refine ⟨?_, ?_, ?_, ?_, ?_, ?_⟩
  · unfold parse_output_line
    rw [if_neg hline]
  · intro h
    unfold parse_output_line
    rw [if_neg hline]
    simp [h, Json.strEq]
  · intro h
    unfold parse_output_line
    rw [if_neg hline]
    simp [h, Json.strEq]
  · intro h
    unfold parse_output_line
    rw [if_neg hline]
    simp [h, Json.strEq]
  · intro h
    unfold parse_output_line
    rw [if_neg hline]
    simp [h, Json.strEq]
  · intro h1 h2 h3 h4
    unfold parse_output_line
    rw [if_neg hline]
    simp [h1, h2, h3, h4]

/-- Witness for C2: the decode-failure path on `not json`, and the claim's
concrete `tool_use` example line with its decoded object. -/
theorem C2_parse_output_line_witness :
    parse_output_line "not json" none =
      .ok (some { type := .text, data := [("content", Json.str "not json")] }) ∧
    parse_output_line
      "\x7b\"type\":\"tool_use\",\"name\":\"grep\",\"input\":\x7b\"pattern\":\"foo\"\x7d\x7d"
      (some (Json.obj [("type", Json.str "tool_use"), ("name", Json.str "grep"),
                       ("input", Json.obj [("pattern", Json.str "foo")])])) =
      .ok (some { type := .tool_start
                , data := [("type", Json.str "tool_use"), ("name", Json.str "grep"),
                           ("input", Json.obj [("pattern", Json.str "foo")])] }) :=
  ⟨(C2_parse_output_line "not json" [] (by decide)).1,
   (C2_parse_output_line
      "\x7b\"type\":\"tool_use\",\"name\":\"grep\",\"input\":\x7b\"pattern\":\"foo\"\x7d\x7d"
      [("type", Json.str "tool_use"), ("name", Json.str "grep"),
       ("input", Json.obj [("pattern", Json.str "foo")])]
      (by decide)).2.2.1 rfl⟩

/-! Section: Claim C1: session_start first, session_end last -/

/-- C1: streaming a session identifier known to the session table yields an
event sequence whose first event is `session_start` and whose last event is
`session_end`, both carrying the identifier, for every behaviour of the
underlying process (any sequence of read outcomes, any exit status, any
stderr contents). -/
theorem C1_stream_first_last (table : SessionTable) (sid : String)
    (s : Session) (p : Process) (hs : table_get table sid = some s)
    (hp : s.process = some p) :
    ∃ items, stream_events table sid = .ok items ∧
      (events_of items).head? = some (session_event .session_start sid) ∧
      (events_of items).getLast? = some (session_event .session_end sid) := by
  refine ⟨stream_body sid p, ?_, ?_, ?_⟩
  · unfold stream_events
    rw [hs]
    simp [hp]
  · rw [stream_body_shape, events_of_append, events_of_cons_evt]
    rfl
  · rw [stream_body_shape, events_of_append]
    have hlast : events_of [StreamItem.evt (session_event .session_end sid)] =
        [session_event .session_end sid] := rfl
    rw [hlast]
    exact List.getLast?_concat _

/-- Witness for C1 at a concrete one-session table whose process exits
non-zero after one text line. -/
theorem C1_stream_first_last_witness :
    ∃ items,
      stream_events
        [("s", { session_id := "s"
               , process := some { steps := [ReadStep.line "hi" none]
                                 , exitCode := 3, stderrData := some "bad" } })]
        "s" = .ok items ∧
      (events_of items).head? = some (session_event .session_start "s") ∧
      (events_of items).getLast? = some (session_event .session_end "s") :=
  C1_stream_first_last _ "s" _ _ rfl rfl

/-! Section: Claim C3: read timeout -/

/-- C3: with a positive configured timeout (so reads are wrapped in
`wait_for`), once a read times out after any run of quietly processed
lines, the loop yields the timeout error event, invokes the termination
policy, and consumes no further read steps; both the error event and the
termination occur before `session_end`. -/
theorem C3_timeout_behaviour (timeout : Int) (sid : String) (p : Process)
    (pre post : List ReadStep) (ht : 0 < timeout)
    (hq : ∀ s ∈ pre, quiet_step s = true)
    (hsteps : p.steps = pre ++ ReadStep.timeout :: post) :
    timeout_enabled timeout = true ∧
    read_loop p.steps =
      ⟨(read_loop pre).items
       ++ [StreamItem.evt timeout_error_event, StreamItem.terminateProc],
       true, post⟩ ∧
    stream_body sid p =
      StreamItem.evt (session_event .session_start sid) ::
      ((read_loop pre).items
       ++ [StreamItem.evt timeout_error_event, StreamItem.terminateProc]
       ++ (if p.termCode ≠ 0 then
             [StreamItem.evt (exit_error_event p.termCode (stderr_text p))]
           else [])
       ++ [StreamItem.closeSession,
           StreamItem.evt (session_event .session_end sid)]) := by
  have hloop : read_loop p.steps =
      ⟨(read_loop pre).items
       ++ [StreamItem.evt timeout_error_event, StreamItem.terminateProc],
       true, post⟩ := by
    rw [hsteps, read_loop_append_quiet pre _ hq]
    rfl
  refine ⟨?_, hloop, ?_⟩
  · simp only [timeout_enabled, Bool.and_eq_true, decide_eq_true_eq]
    exact ⟨by omega, ht⟩
  · unfold stream_body
    rw [hloop]
    simp [observed_returncode, List.append_assoc]

/-- Witness for C3 at timeout 600 and a process whose first read times out
and whose post-termination status is -15. -/
theorem C3_timeout_behaviour_witness :
    timeout_enabled 600 = true ∧
    read_loop [ReadStep.timeout] =
      ⟨[StreamItem.evt timeout_error_event, StreamItem.terminateProc], true, []⟩ ∧
    stream_body "s" { steps := [ReadStep.timeout], termCode := -15,
                      stderrData := some "x" } =
      StreamItem.evt (session_event .session_start "s") ::
      [StreamItem.evt timeout_error_event, StreamItem.terminateProc,
       StreamItem.evt (exit_error_event (-15) "x"), StreamItem.closeSession,
       StreamItem.evt (session_event .session_end "s")] := by
  have h := C3_timeout_behaviour 600 "s"
    { steps := [ReadStep.timeout], termCode := -15, stderrData := some "x" }
    [] [] (by omega) (by simp) rfl
  simpa using h

/-! Section: Claim C4: non-zero exit error event -/

/-- C4 (counterexample): the non-zero-exit error event carries the stderr
contents stripped of whitespace on both ends, not merely trailing
whitespace: for stderr " boom" the event carries "boom", while the
trailing-whitespace-stripped contents are " boom". -/
theorem C4_counterexample_stderr_strip :
    events_of (stream_body "s" { steps := [], exitCode := 1,
                                 stderrData := some " boom" }) =
      [session_event .session_start "s", exit_error_event 1 "boom",
       session_event .session_end "s"] ∧
    pyRstrip " boom" = " boom" ∧ ((" boom" : String) == "boom") = false := by
  refine ⟨rfl, rfl, by decide⟩

/-- C4 (amended): after the read loop ends, for any reason, the observed
exit status is determined and, when non-zero, exactly one additional error
event carrying the status and the both-ends-whitespace-stripped stderr
contents appears after all content events and before `session_end`; a
process with no stdout, exit code 2 and stderr "boom" yields exactly
`session_start`, that error event, `session_end`. -/
theorem C4_exit_error_amended :
    (∀ (sid : String) (p : Process),
      events_of (stream_body sid p) =
        session_event .session_start sid ::
        (events_of (read_loop p.steps).items
         ++ (if observed_returncode p (read_loop p.steps).terminated ≠ 0 then
               [exit_error_event
                 (observed_returncode p (read_loop p.steps).terminated)
                 (stderr_text p)]
             else [])
         ++ [session_event .session_end sid])) ∧
    events_of (stream_body "s" { steps := [], exitCode := 2,
                                 stderrData := some "boom" }) =
      [session_event .session_start "s", exit_error_event 2 "boom",
       session_event .session_end "s"] := by
  constructor
  · intro sid p
    unfold stream_body
    rw [events_of_cons_evt, events_of_append, events_of_append,
      apply_ite events_of]
    simp [events_of]
  · rfl

/-! Section: Claim C10: valid JSON whose top-level value is not an object -/

/-- C10: a non-empty stdout line decoding to a non-object JSON value
produces no text or content event; the attribute lookup on the non-mapping
value raises, the loop's catch-all handler turns it into a single error
event carrying the exception message, no further read steps are consumed,
and the stream proceeds directly to the exit-status check and
`session_end`. -/
theorem C10_non_object_line (sid : String) (p : Process) (pre post : List ReadStep)
    (raw : String) (v : Json) (hq : ∀ s ∈ pre, quiet_step s = true)
    (hsteps : p.steps = pre ++ ReadStep.line raw (some v) :: post)
    (hraw : pyStrip raw ≠ "") (hv : v.isObj = false) :
    read_loop p.steps =
      ⟨(read_loop pre).items
       ++ [StreamItem.evt (loop_error_event (attr_error_msg v))], false, post⟩ ∧
    stream_body sid p =
      StreamItem.evt (session_event .session_start sid) ::
      ((read_loop pre).items
       ++ [StreamItem.evt (loop_error_event (attr_error_msg v))]
       ++ (if p.exitCode ≠ 0 then
             [StreamItem.evt (exit_error_event p.exitCode (stderr_text p))]
           else [])
       ++ [StreamItem.closeSession,
           StreamItem.evt (session_event .session_end sid)]) := by
  have hraw0 : ¬ raw = "" := by
    intro h0
    rw [h0] at hraw
    exact hraw rfl
  have hparse : parse_output_line (pyStrip raw) (some v) =
      .error (attr_error_msg v) := by
    unfold parse_output_line
    rw [if_neg hraw]
    cases v with
    | obj fields => simp [Json.isObj] at hv
    | null => rfl
    | bool b => rfl
    | num n => rfl
    | str s => rfl
    | arr l => rfl
  have hloop : read_loop p.steps =
      ⟨(read_loop pre).items
       ++ [StreamItem.evt (loop_error_event (attr_error_msg v))], false, post⟩ := by
    rw [hsteps, read_loop_append_quiet pre _ hq,
      read_loop_cons_line_error _ _ _ _ hraw0 hparse]
  refine ⟨hloop, ?_⟩
  unfold stream_body
  rw [hloop]
  simp [observed_returncode, List.append_assoc]

/-- Witness for C10 at the line `42`, which decodes to the non-object JSON
value 42 and produces only the int-attribute error event. -/
theorem C10_non_object_line_witness :
    read_loop [ReadStep.line "42" (some (Json.num 42))] =
      ⟨[StreamItem.evt (loop_error_event (attr_error_msg (Json.num 42)))],
       false, []⟩ ∧
    stream_body "s" { steps := [ReadStep.line "42" (some (Json.num 42))] } =
      StreamItem.evt (session_event .session_start "s") ::
      [StreamItem.evt (loop_error_event (attr_error_msg (Json.num 42))),
       StreamItem.closeSession,
       StreamItem.evt (session_event .session_end "s")] := by
  have h := C10_non_object_line "s"
    { steps := [ReadStep.line "42" (some (Json.num 42))] }
    [] [] "42" (Json.num 42) (by simp) rfl (by decide) rfl
  simpa using h

/-! Section: Session-table lemmas -/

theorem table_get_remove_self (table : SessionTable) (sid : String) :
    table_get (table_remove table sid) sid = none := by
  induction table with
  | nil => rfl
  | cons kv rest ih =>
    obtain ⟨k, v⟩ := kv
    by_cases hk : k = sid
    · simpa [table_remove, List.filter_cons, hk] using ih
    · simpa [table_remove, List.filter_cons, hk, table_get] using ih

theorem table_remove_of_get_none (table : SessionTable) (sid : String)
    (h : table_get table sid = none) : table_remove table sid = table := by
  induction table with
  | nil => rfl
  | cons kv rest ih =>
    obtain ⟨k, v⟩ := kv
    by_cases hk : k = sid
    · unfold table_get at h
      rw [if_pos hk] at h
      exact nomatch h
    · unfold table_get at h
      rw [if_neg hk] at h
      have hrest := ih h
      simp only [table_remove] at hrest ⊢
      simp [List.filter_cons, hk, hrest]

theorem table_get_put_self (table : SessionTable) (sid : String) (s : Session) :
    table_get (table_put table sid s) sid = some s := by
  simp [table_put, table_get]

/-- Closing an identifier with no table entry pops nothing and touches no
process. -/
theorem close_get_none (table : SessionTable) (sid : String)
    (h : table_get table sid = none) : close table sid = ⟨table, false, none⟩ := by
  unfold close
  rw [h, table_remove_of_get_none table sid h]

/-- Every path through `close` removes the identifier from the table. -/
theorem close_removes (table : SessionTable) (sid : String) :
    table_get (close table sid).table sid = none := by
  unfold close
  split
  · exact table_get_remove_self _ _
  · split
    · exact table_get_remove_self _ _
    · split
      · exact table_get_remove_self _ _
      · exact table_get_remove_self _ _

/-! Section: Claim C5: close is idempotent -/

/-- C5: closing an unknown identifier is a silent no-op; closing a known
open session with a running process runs the termination policy, marks the
record closed and removes the table entry; and a second close directly
after a first is again a no-op — `close` has no raise path, modelled by it
being a total function. -/
theorem C5_close_idempotent (table : SessionTable) (sid : String) :
    (table_get table sid = none →
        (close table sid).table = table ∧ (close table sid).terminated = false) ∧
    (∀ s pr, table_get table sid = some s → s.closed = false →
        s.process = some pr → pr.returncode = none →
        (close table sid).terminated = true ∧
        (close table sid).finalSession =
          some { s with closed := true,
                        process := some { pr with returncode := some pr.termCode } } ∧
        table_get (close table sid).table sid = none) ∧
    (table_get (close table sid).table sid = none ∧
     (close (close table sid).table sid).table = (close table sid).table ∧
     (close (close table sid).table sid).terminated = false) := by
  refine ⟨?_, ?_, ?_⟩
  · intro h
    rw [close_get_none table sid h]
    exact ⟨rfl, rfl⟩
  · intro s pr hs hc hpr hrc
    unfold close
    rw [hs]
    simp [hc, hpr, terminate_process, hrc, table_get_remove_self]
  · have h := close_removes table sid
    rw [close_get_none _ _ h]
    exact ⟨h, rfl, rfl⟩

/-- Session used by the C5 witness: open, with a running process. -/
def c5_session : Session :=
  { session_id := "s", process := some { termCode := -9 } }

/-- Witness for C5: unknown identifier on the empty table, and a concrete
open running session that gets terminated and removed. -/
theorem C5_close_idempotent_witness :
    ((close ([] : SessionTable) "nope").table = ([] : SessionTable) ∧
     (close ([] : SessionTable) "nope").terminated = false) ∧
    ((close [("s", c5_session)] "s").terminated = true ∧
     table_get (close [("s", c5_session)] "s").table "s" = none) :=
  ⟨(C5_close_idempotent [] "nope").1 rfl,
   ((C5_close_idempotent [("s", c5_session)] "s").2.1 c5_session
      { termCode := -9 } rfl rfl rfl rfl).1,
   ((C5_close_idempotent [("s", c5_session)] "s").2.1 c5_session
      { termCode := -9 } rfl rfl rfl rfl).2.2⟩

/-! Section: Claim C6: send -/

/-- C6 (counterexample): `start_session` leaves the session's stdin present
but closed; `send` on such a session does not fail with the
stdin-unavailable `RuntimeError` — the `not session.process.stdin` check
only catches an absent stdin stream, and a closed writer object is truthy —
so the claimed ResourceUnavailable failure for a non-writable (closed)
stdin does not occur; the call proceeds to write to the closed stream. -/
theorem C6_counterexample_closed_stdin :
    (∃ s pr sIn,
      table_get (start_session {} [] "s" "hello" {}).1 "s" = some s ∧
      s.process = some pr ∧ pr.stdin = some sIn ∧ sIn.closed = true) ∧
    send (start_session {} [] "s" "hello" {}).1 "s" "again" =
      SendOutcome.wrote "again\n" true ∧
    (send (start_session {} [] "s" "hello" {}).1 "s" "again").isUnavailable
      = false := by
  refine ⟨⟨_, _, _, table_get_put_self _ _ _, rfl, rfl, rfl⟩, ?_, ?_⟩
  · simp [start_session, table_put, send, table_get]
  · simp [start_session, table_put, send, table_get, SendOutcome.isUnavailable]

/-- C6 (amended): `send` fails with `NotFound` (`ValueError`) when the
identifier is unknown, the session has no process, or the session is
closed; it fails with `ResourceUnavailable` (`RuntimeError`) only when the
process has no standard input stream at all; otherwise — even when the
stream has already been closed, as `start_session` always leaves it — it
writes the message plus a trailing newline to that stream and flushes. -/
theorem C6_send_amended (table : SessionTable) (sid msg : String) :
    (table_get table sid = none →
        send table sid msg = .notFound ("Session " ++ sid ++ " not found")) ∧
    (∀ s, table_get table sid = some s → s.process = none →
        send table sid msg = .notFound ("Session " ++ sid ++ " not found")) ∧
    (∀ s pr, table_get table sid = some s → s.process = some pr →
        s.closed = true →
        send table sid msg = .notFound ("Session " ++ sid ++ " not found")) ∧
    (∀ s pr, table_get table sid = some s → s.process = some pr →
        s.closed = false → pr.stdin = none →
        send table sid msg = .stdinUnavailable "Session stdin is not available") ∧
    (∀ s pr sIn, table_get table sid = some s → s.process = some pr →
        s.closed = false → pr.stdin = some sIn →
        send table sid msg = .wrote (msg ++ "\n") sIn.closed) := by
  refine ⟨?_, ?_, ?_, ?_, ?_⟩
  · intro h
    unfold send
    rw [h]
  · intro s hs hp
    unfold send
    rw [hs]
    simp [hp]
  · intro s pr hs hp hc
    unfold send
    rw [hs]
    simp [hp, hc]
  · intro s pr hs hp hc hin
    unfold send
    rw [hs]
    simp [hp, hc, hin]
  · intro s pr sIn hs hp hc hin
    unfold send
    rw [hs]
    simp [hp, hc, hin]

/-- Witness for C6 (amended): unknown identifier on the empty table, and a
write to the closed-but-present stdin of a freshly started session. -/
theorem C6_send_amended_witness :
    send ([] : SessionTable) "x" "m" =
      SendOutcome.notFound ("Session " ++ "x" ++ " not found") ∧
    send (start_session {} [] "s" "hello" {}).1 "s" "again" =
      SendOutcome.wrote ("again" ++ "\n") true :=
  ⟨(C6_send_amended [] "x" "m").1 rfl,
   (C6_send_amended (start_session {} [] "s" "hello" {}).1 "s" "again").2.2.2.2
     _ _ _ (table_get_put_self _ _ _) rfl rfl rfl⟩

/-! Section: Claim C9: command construction and prompt delivery -/

/-- C9: the spawned argument list is exactly the fixed base subcommand, the
sandbox-bypass flag iff enabled, the model flag and model, the
line-delimited-JSON flag, the extra arguments, and the stdin marker; it
does not depend on the prompt, and the prompt never appears in it (unless
it collides with a configured component); `start_session` instead writes
the prompt plus a newline to the process's stdin and closes it. -/
theorem C9_command_construction :
    (∀ (cfg : Config) (prompt : String),
      build_command cfg prompt =
        ["codex", "exec"]
        ++ (if cfg.bypass_sandbox then [BYPASS_SANDBOX_FLAG] else [])
        ++ ["-m", cfg.model, "--json"] ++ cfg.extra_args ++ ["-"]) ∧
    (∀ (cfg : Config) (p q : String), build_command cfg p = build_command cfg q) ∧
    (∀ (cfg : Config) (prompt : String),
      prompt ∉ (["codex", "exec", BYPASS_SANDBOX_FLAG, "-m", cfg.model,
                 "--json", "-"] : List String) →
      prompt ∉ cfg.extra_args →
      prompt ∉ build_command cfg prompt) ∧
    (∀ (cfg : Config) (table : SessionTable) (sid prompt : String)
        (beh : SpawnBehavior),
      ∃ s pr, table_get (start_session cfg table sid prompt beh).1 sid = some s ∧
        s.process = some pr ∧ pr.cmd = build_command cfg prompt ∧
        pr.stdin = some { closed := true, buf := prompt ++ "\n" }) := by
  refine ⟨?_, ?_, ?_, ?_⟩
  · intro cfg prompt
    simp [build_command]
  · intro cfg p q
    rfl
  · intro cfg prompt h1 h2
    simp only [List.mem_cons, List.mem_singleton, not_or] at h1
    obtain ⟨hc, he, hf, hm, hmod, hj, hd⟩ := h1
    by_cases hb : cfg.bypass_sandbox <;>
      simp [build_command, hb, List.mem_append, List.mem_cons, not_or, *]
  · intro cfg table sid prompt beh
    exact ⟨_, _, table_get_put_self _ _ _, rfl, rfl, rfl⟩

/-- Witness for C9: a prompt distinct from every configured component never
appears in the command line of a default-configured client, and a started
session's process records that command with the prompt written to its
closed stdin. -/
theorem C9_command_construction_witness :
    ("PROMPT" : String) ∉ build_command ({} : Config) "PROMPT" ∧
    ∃ s pr,
      table_get (start_session {} [] "sid0" "PROMPT" {}).1 "sid0" = some s ∧
      s.process = some pr ∧ pr.cmd = build_command {} "PROMPT" ∧
      pr.stdin = some { closed := true, buf := "PROMPT" ++ "\n" } :=
  ⟨C9_command_construction.2.2.1 {} "PROMPT" (by decide) (by decide),
   C9_command_construction.2.2.2 {} [] "sid0" "PROMPT" {}⟩
